import Mathlib

/-!
Verification of the observer mechanism of `app/history.py`.

The Python module defines an abstract `HistoryObserver` with a single
operation `update(calculation)`, and two concrete observers:

  * `LoggingObserver.update` raises `AttributeError` when the calculation
    is `None`, and otherwise emits one informational log record in a fixed
    format built from the operation, both operands and the result.
  * `AutoSaveObserver.__init__` checks `hasattr(calculator, 'config')` and
    `hasattr(calculator, 'save_history')` and raises `TypeError` when
    either attribute is missing; otherwise it stores a reference to the
    calculator object.
  * `AutoSaveObserver.update` raises `AttributeError` when the calculation
    is `None`; otherwise it reads `self.calculator.config.auto_save` from
    the live host object and, when the flag is truthy, calls
    `self.calculator.save_history()` and then logs `History auto-saved`.

The embedding is an event-trace semantics: each `update` returns the list
of side-effect events it performed (log records and `save_history` calls),
the exception it raised if any, and the state of the calculation record
after the call.  The mutable Python host object is modelled by a heap of
host states indexed by references (`Nat`); the observer stores only the
reference, and `update` receives the heap as it is at call time, which is
exactly the aliasing behaviour of `self.calculator` in the source.
-/

/-- Model of the external `Calculation` record: an operation identifier,
two operands and a result.  The numeric fields are modelled as integers;
only their rendering into the log line matters here. -/
structure Calculation where
  operation : String
  operand1 : Int
  operand2 : Int
  result : Int
  deriving DecidableEq, Repr

/-- Python exceptions raised by this module or by its collaborators. -/
inductive PyError where
  | attributeError (msg : String)
  | typeError (msg : String)
  | osError (msg : String)
  deriving DecidableEq, Repr

/-- Side-effect events an observer can perform: emitting an informational
log record, or invoking the host calculator's `save_history()` action. -/
inductive Event where
  | logInfo (msg : String)
  | save
  deriving DecidableEq, Repr

/-- Outcome of one `update` call: the side-effect events in the order they
happened, the exception that propagated (if any), and the state of the
calculation argument after the call (`none` when the argument was `None`).
The operation returns no value (Python returns `None`). -/
structure UpdateResult where
  events : List Event
  error : Option PyError
  calcAfter : Option Calculation
  deriving DecidableEq, Repr

/-- The host calculator's `config` attribute value.  `auto_save` is
`none` when the config object lacks an `auto_save` attribute, and
`some b` when the attribute is present with boolean value `b`. -/
structure Config where
  auto_save : Option Bool
  deriving DecidableEq, Repr

/-- State of a host calculator object.  `config = none` models a host
without a `config` attribute; `has_save_history` models
`hasattr(host, 'save_history')`; `saveResult` is the behaviour of the
external `save_history()` action when called: `none` means it returns
normally, `some e` means it raises `e`. -/
structure Host where
  config : Option Config
  has_save_history : Bool
  saveResult : Option PyError
  deriving DecidableEq, Repr

/-- A heap of host objects, indexed by references. -/
abbrev Heap := Nat → Host

/-- The fixed log line of `LoggingObserver.update`, from the f-string in
the source. -/
def calcLogMessage (c : Calculation) : String :=
  "Calculation performed: " ++ c.operation ++ " (" ++ toString c.operand1 ++
    ", " ++ toString c.operand2 ++ ") = " ++ toString c.result

/-- `LoggingObserver.update`: raise `AttributeError` on `None`, otherwise
emit exactly one informational record with the formatted message.  The
calculation is never written to. -/
def LoggingObserver.update (calculation : Option Calculation) : UpdateResult :=
  match calculation with
  | none => ⟨[], some (PyError.attributeError "Calculation cannot be None"), none⟩
  | some c => ⟨[Event.logInfo (calcLogMessage c)], none, some c⟩

/-- An `AutoSaveObserver` instance: it stores only the reference to the
host calculator object (`self.calculator = calculator`). -/
structure AutoSaveObserver where
  calculator : Nat
  deriving DecidableEq, Repr

/-- `AutoSaveObserver.__init__`: raise `TypeError` unless the host has
both a `config` attribute and a `save_history` attribute; on success the
observer holds the reference to the host. -/
def AutoSaveObserver.init (heap : Heap) (calculator : Nat) :
    Except PyError AutoSaveObserver :=
  if (heap calculator).config.isSome && (heap calculator).has_save_history then
    Except.ok ⟨calculator⟩
  else
    Except.error (PyError.typeError
      "Calculator must have \x27config\x27 and \x27save_history\x27 attributes")

/-- The body of `AutoSaveObserver.update` after the `None` check: read
`self.calculator.config.auto_save` from the live host; if truthy, call
`save_history()` and then log `History auto-saved`.  A missing attribute
raises `AttributeError` at the point of access; an exception from
`save_history()` propagates before the log call runs. -/
def AutoSaveObserver.updateEffects (obs : AutoSaveObserver) (heap : Heap) :
    List Event × Option PyError :=
  match (heap obs.calculator).config with
  | none => ([], some (PyError.attributeError "config"))
  | some cfg =>
    match cfg.auto_save with
    | none => ([], some (PyError.attributeError "auto_save"))
    | some b =>
      if b then
        if (heap obs.calculator).has_save_history then
          match (heap obs.calculator).saveResult with
          | some e => ([Event.save], some e)
          | none => ([Event.save, Event.logInfo "History auto-saved"], none)
        else
          ([], some (PyError.attributeError "save_history"))
      else
        ([], none)

/-- `AutoSaveObserver.update`: raise `AttributeError` on `None` before
touching the host, otherwise run the auto-save body.  The calculation
record is never written to. -/
def AutoSaveObserver.update (obs : AutoSaveObserver) (heap : Heap)
    (calculation : Option Calculation) : UpdateResult :=
  match calculation with
  | none => ⟨[], some (PyError.attributeError "Calculation cannot be None"), none⟩
  | some c =>
    ⟨(AutoSaveObserver.updateEffects obs heap).1,
     (AutoSaveObserver.updateEffects obs heap).2, some c⟩

/-- Number of `save_history` invocations in an event trace. -/
def countSaves (es : List Event) : Nat :=
  es.countP (fun e => match e with | Event.save => true | _ => false)

/-- Number of informational log records in an event trace. -/
def countInfoLogs (es : List Event) : Nat :=
  es.countP (fun e => match e with | Event.logInfo _ => true | _ => false)

/-- A host without a `config` attribute. -/
def hostNoConfig : Host := ⟨none, true, none⟩

/-- A host with a `config` attribute whose value lacks `auto_save`, and a
`save_history` attribute. -/
def hostConfigNoAutoSave : Host := ⟨some ⟨none⟩, true, none⟩

/-- A valid host whose `config.auto_save` is true and whose
`save_history()` succeeds. -/
def hostAutoSaveOn : Host := ⟨some ⟨some true⟩, true, none⟩

/-- A valid host whose `config.auto_save` is false. -/
def hostAutoSaveOff : Host := ⟨some ⟨some false⟩, true, none⟩

/-- A valid host whose `config.auto_save` is true but whose
`save_history()` raises. -/
def hostSaveRaises : Host := ⟨some ⟨some true⟩, true, some (PyError.osError "disk full")⟩

/-- C1: for every non-null Calculation, `LoggingObserver.update` succeeds
and emits exactly one informational log record whose text is the fixed
format built from the operation, both operands and the result; in
particular for operation add, operands 2 and 3 and result 5 the line
reads exactly `Calculation performed: add (2, 3) = 5`. -/
theorem loggingObserver_emits_one_formatted_record :
    (∀ c : Calculation,
      (LoggingObserver.update (some c)).events = [Event.logInfo (calcLogMessage c)] ∧
      (LoggingObserver.update (some c)).error = none) ∧
    (LoggingObserver.update (some ⟨"add", 2, 3, 5⟩)).events =
      [Event.logInfo "Calculation performed: add (2, 3) = 5"] := by
  refine ⟨fun c => ⟨rfl, rfl⟩, ?_⟩
  decide

/-- C2: constructing an `AutoSaveObserver` over a host lacking the
`config` attribute, or lacking the `save_history` attribute, raises a
`TypeError` and no observer instance is created. -/
theorem autoSaveObserver_init_missing_capability_fails (heap : Heap) (r : Nat)
    (h : (heap r).config.isSome = false ∨ (heap r).has_save_history = false) :
    AutoSaveObserver.init heap r =
      Except.error (PyError.typeError
        "Calculator must have \x27config\x27 and \x27save_history\x27 attributes") := by
  unfold AutoSaveObserver.init
  rcases h with h | h <;> simp [h]

/-- Witness for C2 at a concrete host that lacks `config`. -/
theorem autoSaveObserver_init_missing_capability_fails_w :
    AutoSaveObserver.init (fun _ => hostNoConfig) 0 =
      Except.error (PyError.typeError
        "Calculator must have \x27config\x27 and \x27save_history\x27 attributes") :=
  autoSaveObserver_init_missing_capability_fails (fun _ => hostNoConfig) 0
    (Or.inl rfl)

/-- C3 counterexample: a host that has a `config` attribute whose value
lacks `auto_save` (and has `save_history`) is accepted by the
constructor, refuting the claim that construction fails for every host
missing part of the capability set `config.auto_save`. -/
theorem autoSaveObserver_init_accepts_config_without_auto_save :
    AutoSaveObserver.init (fun _ => hostConfigNoAutoSave) 0 =
      Except.ok ⟨0⟩ := by
  rfl

/-- C3 amended: an `AutoSaveObserver` is constructed exactly when the
host has both a `config` attribute and a `save_history` attribute; the
presence of `auto_save` inside the config is not checked at
construction, and a host whose config lacks `auto_save` only fails
later, with an `AttributeError` inside `update`. -/
theorem autoSaveObserver_init_checks_attribute_presence :
    (∀ (heap : Heap) (r : Nat),
      (∃ o, AutoSaveObserver.init heap r = Except.ok o) ↔
        (heap r).config.isSome = true ∧ (heap r).has_save_history = true) ∧
    (AutoSaveObserver.update ⟨0⟩ (fun _ => hostConfigNoAutoSave)
        (some ⟨"add", 2, 3, 5⟩)).error =
      some (PyError.attributeError "auto_save") := by
  constructor
  · intro heap r
    unfold AutoSaveObserver.init
    by_cases h1 : (heap r).config.isSome <;>
      by_cases h2 : (heap r).has_save_history <;> simp [h1, h2]
  · decide

/-- C4: for a valid host whose `config.auto_save` reads true at call time
and any non-null Calculation, `update` invokes the host's `save_history`
exactly once, and when that action returns normally it emits exactly one
informational log record noting the auto-save. -/
theorem autoSaveObserver_update_flag_true_saves_once (obs : AutoSaveObserver)
    (heap : Heap) (c : Calculation) (cfg : Config)
    (hcfg : (heap obs.calculator).config = some cfg)
    (hflag : cfg.auto_save = some true)
    (hsh : (heap obs.calculator).has_save_history = true) :
    countSaves (AutoSaveObserver.update obs heap (some c)).events = 1 ∧
    ((heap obs.calculator).saveResult = none →
      (AutoSaveObserver.update obs heap (some c)).events =
        [Event.save, Event.logInfo "History auto-saved"] ∧
      (AutoSaveObserver.update obs heap (some c)).error = none ∧
      countInfoLogs (AutoSaveObserver.update obs heap (some c)).events = 1) := by
  cases hres : (heap obs.calculator).saveResult with
  | none =>
    simp [AutoSaveObserver.update, AutoSaveObserver.updateEffects, hcfg, hflag,
      hsh, hres, countSaves, countInfoLogs]
  | some e =>
    simp [AutoSaveObserver.update, AutoSaveObserver.updateEffects, hcfg, hflag,
      hsh, hres, countSaves, countInfoLogs]

/-- Witness for C4 at a concrete valid host with the flag on. -/
theorem autoSaveObserver_update_flag_true_saves_once_w :
    countSaves (AutoSaveObserver.update ⟨0⟩ (fun _ => hostAutoSaveOn)
        (some ⟨"add", 2, 3, 5⟩)).events = 1 ∧
    (((fun _ => hostAutoSaveOn) (0 : Nat)).saveResult = none →
      (AutoSaveObserver.update ⟨0⟩ (fun _ => hostAutoSaveOn)
          (some ⟨"add", 2, 3, 5⟩)).events =
        [Event.save, Event.logInfo "History auto-saved"] ∧
      (AutoSaveObserver.update ⟨0⟩ (fun _ => hostAutoSaveOn)
          (some ⟨"add", 2, 3, 5⟩)).error = none ∧
      countInfoLogs (AutoSaveObserver.update ⟨0⟩ (fun _ => hostAutoSaveOn)
          (some ⟨"add", 2, 3, 5⟩)).events = 1) :=
  autoSaveObserver_update_flag_true_saves_once ⟨0⟩ (fun _ => hostAutoSaveOn)
    ⟨"add", 2, 3, 5⟩ ⟨some true⟩ rfl rfl rfl

/-- C5: for a valid host whose `config.auto_save` reads false at call time
and any non-null Calculation, `update` performs no event at all (no
`save_history` call, no log record), raises nothing, and leaves the
calculation unchanged. -/
theorem autoSaveObserver_update_flag_false_no_effect (obs : AutoSaveObserver)
    (heap : Heap) (c : Calculation) (cfg : Config)
    (hcfg : (heap obs.calculator).config = some cfg)
    (hflag : cfg.auto_save = some false) :
    AutoSaveObserver.update obs heap (some c) = ⟨[], none, some c⟩ := by
  simp [AutoSaveObserver.update, AutoSaveObserver.updateEffects, hcfg, hflag]

/-- Witness for C5 at a concrete valid host with the flag off. -/
theorem autoSaveObserver_update_flag_false_no_effect_w :
    AutoSaveObserver.update ⟨0⟩ (fun _ => hostAutoSaveOff)
        (some ⟨"add", 2, 3, 5⟩) =
      ⟨[], none, some ⟨"add", 2, 3, 5⟩⟩ :=
  autoSaveObserver_update_flag_false_no_effect ⟨0⟩ (fun _ => hostAutoSaveOff)
    ⟨"add", 2, 3, 5⟩ ⟨some false⟩ rfl rfl

/-- C6: `LoggingObserver.update` on a null calculation always raises the
invalid-argument error (`AttributeError: Calculation cannot be None`) and
emits no log record. -/
theorem loggingObserver_update_none_fails :
    LoggingObserver.update none =
      ⟨[], some (PyError.attributeError "Calculation cannot be None"), none⟩ :=
  rfl

/-- C7: `AutoSaveObserver.update` on a null calculation raises the
invalid-argument error before touching the host: for every observer and
every heap — including hosts with no `config` at all — no event is
performed, so `config` is not consulted and `save_history` is not
called. -/
theorem autoSaveObserver_update_none_fails (obs : AutoSaveObserver)
    (heap : Heap) :
    AutoSaveObserver.update obs heap none =
      ⟨[], some (PyError.attributeError "Calculation cannot be None"), none⟩ :=
  rfl

/-- C8: the auto-save decision is taken from the host state at call time,
never from a value cached at construction: the observer produced by the
constructor carries nothing but the host reference (two constructions
over arbitrarily different host states yield the identical observer), and
the result of `update` depends only on the host state at the moment of
the call, so a flag that changed between construction and a call governs
that call by its current value. -/
theorem autoSaveObserver_reads_live_flag :
    (∀ (h0 h1 : Heap) (r : Nat) (o0 o1 : AutoSaveObserver),
      AutoSaveObserver.init h0 r = Except.ok o0 →
      AutoSaveObserver.init h1 r = Except.ok o1 → o0 = o1) ∧
    (∀ (obs : AutoSaveObserver) (h1 h2 : Heap) (c : Calculation),
      h1 obs.calculator = h2 obs.calculator →
      AutoSaveObserver.update obs h1 (some c) =
        AutoSaveObserver.update obs h2 (some c)) := by
  constructor
  · intro h0 h1 r o0 o1 e0 e1
    unfold AutoSaveObserver.init at e0 e1
    split at e0 <;> split at e1 <;>
      simp_all
  · intro obs h1 h2 c hlive
    unfold AutoSaveObserver.update AutoSaveObserver.updateEffects
    rw [hlive]

/-- Witness for C8: an observer built over a heap where the flag is on
behaves, on a heap where the hosts other than its own changed, exactly as
on the original heap. -/
theorem autoSaveObserver_reads_live_flag_w :
    AutoSaveObserver.update ⟨0⟩ (fun _ => hostAutoSaveOn)
        (some ⟨"add", 2, 3, 5⟩) =
      AutoSaveObserver.update ⟨0⟩
        (fun n => if n = 0 then hostAutoSaveOn else hostAutoSaveOff)
        (some ⟨"add", 2, 3, 5⟩) :=
  autoSaveObserver_reads_live_flag.2 ⟨0⟩ (fun _ => hostAutoSaveOn)
    (fun n => if n = 0 then hostAutoSaveOn else hostAutoSaveOff)
    ⟨"add", 2, 3, 5⟩ rfl

/-- C9: neither observer modifies the Calculation record it receives:
after `LoggingObserver.update` and after `AutoSaveObserver.update` (over
any observer and any heap) the record is the very one passed in, with all
four fields unchanged, and the result carries only events and an optional
exception — no value flows back into the calculation pipeline. -/
theorem observers_preserve_calculation (c : Calculation)
    (obs : AutoSaveObserver) (heap : Heap) :
    (LoggingObserver.update (some c)).calcAfter = some c ∧
    (AutoSaveObserver.update obs heap (some c)).calcAfter = some c :=
  ⟨rfl, rfl⟩

/-- C10: with the flag true, `save_history` runs strictly before the
auto-save log record: on a normal return the trace is the save event
followed by the log record, and when `save_history` raises the error
propagates with the save event recorded and no log record ever
emitted. -/
theorem autoSaveObserver_save_precedes_log (obs : AutoSaveObserver)
    (heap : Heap) (c : Calculation) (cfg : Config)
    (hcfg : (heap obs.calculator).config = some cfg)
    (hflag : cfg.auto_save = some true)
    (hsh : (heap obs.calculator).has_save_history = true) :
    ((heap obs.calculator).saveResult = none →
      (AutoSaveObserver.update obs heap (some c)).events =
        [Event.save, Event.logInfo "History auto-saved"]) ∧
    (∀ e, (heap obs.calculator).saveResult = some e →
      AutoSaveObserver.update obs heap (some c) =
        ⟨[Event.save], some e, some c⟩) := by
  cases hres : (heap obs.calculator).saveResult with
  | none =>
    simp [AutoSaveObserver.update, AutoSaveObserver.updateEffects, hcfg, hflag,
      hsh, hres]
  | some e =>
    simp [AutoSaveObserver.update, AutoSaveObserver.updateEffects, hcfg, hflag,
      hsh, hres]

/-- Witness for C10 at a concrete host whose `save_history` raises. -/
theorem autoSaveObserver_save_precedes_log_w :
    (((fun _ => hostSaveRaises) (0 : Nat)).saveResult = none →
      (AutoSaveObserver.update ⟨0⟩ (fun _ => hostSaveRaises)
          (some ⟨"add", 2, 3, 5⟩)).events =
        [Event.save, Event.logInfo "History auto-saved"]) ∧
    (∀ e, ((fun _ => hostSaveRaises) (0 : Nat)).saveResult = some e →
      AutoSaveObserver.update ⟨0⟩ (fun _ => hostSaveRaises)
          (some ⟨"add", 2, 3, 5⟩) =
        ⟨[Event.save], some e, some ⟨"add", 2, 3, 5⟩⟩) :=
  autoSaveObserver_save_precedes_log ⟨0⟩ (fun _ => hostSaveRaises)
    ⟨"add", 2, 3, 5⟩ ⟨some true⟩ rfl rfl rfl
